import Mathlib

/-!
Verification of the mcp-make-server repository: a shallow embedding of the
Make.com API client (request construction, query-string encoding, error
normalization, per-entity request builders) and of the two MCP tool
dispatchers (the standalone stdio server in src/index.ts and the hosted
handler variant in api/mcp.ts), together with theorems settling the
specification claims.

JavaScript values flowing through the dispatcher originate from parsed JSON
(the MCP argument bag) or from parsed HTTP response bodies, so they are
modelled by the inductive type Json below; a possibly-undefined value is
modelled as Option Json with none standing for undefined.
-/

/-- A JSON value. Numbers are modelled as integers: every number the
repository manipulates (ids, offsets, limits, status codes) is integral. -/
inductive Json where
  | null : Json
  | bool : Bool → Json
  | num : Int → Json
  | str : String → Json
  | arr : List Json → Json
  | obj : List (String × Json) → Json

/-- JavaScript truthiness of a possibly-undefined value:
undefined, null, false, 0 and the empty string are falsy. -/
def truthy : Option Json → Bool
  | none => false
  | some .null => false
  | some (.bool b) => b
  | some (.num n) => n != 0
  | some (.str s) => s != ""
  | some (.arr _) => true
  | some (.obj _) => true

/-- The JavaScript logical-or: the left operand when truthy, else the right. -/
def jsOr (a b : Option Json) : Option Json :=
  if truthy a then a else b

/-- Property access on a parsed JSON value: a field of an object, undefined
on any non-object (member access on number/string/boolean/array yields
undefined for these field names; access on null throws and is handled at
the call site). -/
def objGet (j : Json) (key : String) : Option Json :=
  match j with
  | .obj fields => (fields.find? (fun f => f.1 == key)).map (fun f => f.2)
  | _ => none

/-- A JavaScript object literal whose fields may be undefined.
JSON.stringify omits undefined-valued properties, and no other operation in
the repository observes them, so they are dropped at construction. -/
def jsObj (fields : List (String × Option Json)) : Json :=
  .obj (fields.filterMap (fun f => f.2.map (fun v => (f.1, v))))

/-- The hexadecimal digit characters, lowercase (used by the \u escapes of
JSON.stringify). -/
def hexCharLower (n : Nat) : Char :=
  if n < 10 then Char.ofNat (48 + n) else Char.ofNat (87 + n)

/-- The hexadecimal digit characters, uppercase (used by the percent
escapes of URLSearchParams). -/
def hexCharUpper (n : Nat) : Char :=
  if n < 10 then Char.ofNat (48 + n) else Char.ofNat (55 + n)

/-- JSON.stringify escaping of a single character inside a string literal. -/
def escapeChar (ch : Char) : String :=
  if ch == '"' then "\\\""
  else if ch == '\\' then "\\\\"
  else if ch == '\x08' then "\\b"
  else if ch == '\t' then "\\t"
  else if ch == '\n' then "\\n"
  else if ch == '\x0c' then "\\f"
  else if ch == '\r' then "\\r"
  else if ch.toNat < 32 then
    "\\u00" ++ String.singleton (hexCharLower (ch.toNat / 16)) ++
      String.singleton (hexCharLower (ch.toNat % 16))
  else String.singleton ch

/-- JSON.stringify rendering of a string, quotes included. -/
def quoteString (s : String) : String :=
  "\"" ++ String.join (s.toList.map escapeChar) ++ "\""

mutual

/-- JSON.stringify with no indentation, as used for request bodies and for
the error-detail fallback. -/
def stringifyCompact : Json → String
  | .null => "null"
  | .bool true => "true"
  | .bool false => "false"
  | .num n => toString n
  | .str s => quoteString s
  | .arr xs => "[" ++ compactItems xs ++ "]"
  | .obj fs => "\x7b" ++ compactFields fs ++ "\x7d"

def compactItems : List Json → String
  | [] => ""
  | [x] => stringifyCompact x
  | x :: xs => stringifyCompact x ++ "," ++ compactItems xs

def compactFields : List (String × Json) → String
  | [] => ""
  | [(k, v)] => quoteString k ++ ":" ++ stringifyCompact v
  | (k, v) :: fs => quoteString k ++ ":" ++ stringifyCompact v ++ "," ++ compactFields fs

end

/-- A run of space characters, for pretty-printed JSON indentation. -/
def spaces (n : Nat) : String := String.mk (List.replicate n ' ')

mutual

/-- JSON.stringify with a two-space indent (JSON.stringify(value, null, 2)),
as used for every successful tool result. The indent argument is the
current nesting depth in spaces. -/
def stringifyPretty (indent : Nat) : Json → String
  | .arr [] => "[]"
  | .arr xs => "[\n" ++ prettyItems (indent + 2) xs ++ "\n" ++ spaces indent ++ "]"
  | .obj [] => "\x7b\x7d"
  | .obj fs => "\x7b\n" ++ prettyFields (indent + 2) fs ++ "\n" ++ spaces indent ++ "\x7d"
  | j => stringifyCompact j

def prettyItems (indent : Nat) : List Json → String
  | [] => ""
  | [x] => spaces indent ++ stringifyPretty indent x
  | x :: xs => spaces indent ++ stringifyPretty indent x ++ ",\n" ++ prettyItems indent xs

def prettyFields (indent : Nat) : List (String × Json) → String
  | [] => ""
  | [(k, v)] => spaces indent ++ quoteString k ++ ": " ++ stringifyPretty indent v
  | (k, v) :: fs =>
    spaces indent ++ quoteString k ++ ": " ++ stringifyPretty indent v ++ ",\n" ++
      prettyFields indent fs

end

mutual

/-- The JavaScript String() conversion of a defined value, as performed by
template-literal interpolation and by URLSearchParams.append. -/
def jsStringOfJson : Json → String
  | .null => "null"
  | .bool true => "true"
  | .bool false => "false"
  | .num n => toString n
  | .str s => s
  | .arr xs => jsArrayString xs
  | .obj _ => "[object Object]"

/-- Array.prototype.toString: elements joined by commas, null elements
rendered empty. -/
def jsArrayString : List Json → String
  | [] => ""
  | [.null] => ""
  | [x] => jsStringOfJson x
  | .null :: xs => "," ++ jsArrayString xs
  | x :: xs => jsStringOfJson x ++ "," ++ jsArrayString xs

end

/-- String() of a possibly-undefined value: undefined renders as the string
undefined, exactly what a template literal produces for a missing argument. -/
def jsString : Option Json → String
  | none => "undefined"
  | some j => jsStringOfJson j

/-- The UTF-8 bytes of a character, as URLSearchParams encodes non-ASCII
input. -/
def utf8Bytes (ch : Char) : List Nat :=
  let n := ch.toNat
  if n < 128 then [n]
  else if n < 2048 then [192 + n / 64, 128 + n % 64]
  else if n < 65536 then [224 + n / 4096, 128 + (n / 64) % 64, 128 + n % 64]
  else [240 + n / 262144, 128 + (n / 4096) % 64, 128 + (n / 64) % 64, 128 + n % 64]

/-- The application/x-www-form-urlencoded serialization of one byte, as
produced by URLSearchParams.toString: ASCII alphanumerics and * - . _ kept,
space as +, everything else percent-encoded with uppercase hex. -/
def formEncodeByte (b : Nat) : String :=
  if (48 ≤ b ∧ b ≤ 57) ∨ (65 ≤ b ∧ b ≤ 90) ∨ (97 ≤ b ∧ b ≤ 122) ∨
      b = 42 ∨ b = 45 ∨ b = 46 ∨ b = 95 then
    String.singleton (Char.ofNat b)
  else if b = 32 then "+"
  else "%" ++ String.singleton (hexCharUpper (b / 16)) ++ String.singleton (hexCharUpper (b % 16))

/-- Form-urlencoding of a full string. -/
def formEncode (s : String) : String :=
  String.join (((s.toList.map utf8Bytes).flatten).map formEncodeByte)

/-- One name=value pair of the serialized query string. -/
def encodePair (p : String × String) : String :=
  formEncode p.1 ++ "=" ++ formEncode p.2

/-- URLSearchParams.toString: the encoded pairs joined by ampersands. -/
def serializeParams : List (String × String) → String
  | [] => ""
  | [p] => encodePair p
  | p :: ps => encodePair p ++ "&" ++ serializeParams ps

/-- The append loop of MakeClient.request: every entry whose value is not
undefined is appended to the URLSearchParams as (key, String(value));
entries with an undefined value are skipped. -/
def collectParams (queryParams : List (String × Option Json)) : List (String × String) :=
  queryParams.foldl
    (fun acc kv =>
      match kv.2 with
      | some v => acc ++ [(kv.1, jsStringOfJson v)]
      | none => acc)
    []

/-- URL construction of MakeClient.request: base URL concatenated with the
path; when a query-parameter record was given and its serialization is
nonempty, a question mark and the query string are appended. -/
def buildUrl (baseUrl path : String) (queryParams : Option (List (String × Option Json))) : String :=
  let url := baseUrl ++ path
  match queryParams with
  | none => url
  | some qp =>
    let queryString := serializeParams (collectParams qp)
    if queryString = "" then url else url ++ ("?" ++ queryString)

/-- The constructor configuration of MakeClient. -/
structure MakeConfig where
  apiToken : String
  zone : String

/-- The immutable state a MakeClient holds: base URL and headers, fixed at
construction. -/
structure MakeClient where
  baseUrl : String
  headers : List (String × String)

/-- The MakeClient constructor. -/
def makeClient (config : MakeConfig) : MakeClient :=
  { baseUrl := "https://" ++ config.zone ++ ".make.com/api/v2",
    headers := [("Authorization", "Token " ++ config.apiToken),
                ("Content-Type", "application/json")] }

/-- The structured error thrown by MakeClient.request on a non-2xx
response. The detail field holds the raw JavaScript value assigned by the
error-body inspection (a string in every reachable case that has one). -/
structure MakeApiError where
  statusCode : Nat
  statusText : String
  detail : Option Json

/-- The Error message set by the MakeApiError constructor. -/
def MakeApiError.message (e : MakeApiError) : String :=
  "Make API Error " ++ toString e.statusCode ++ ": " ++ e.statusText ++
    (if truthy e.detail then " - " ++ jsString e.detail else "")

/-- An HTTP response as the client observes it: status, status text, and the
outcome of response.json() — ok with the parsed value, or error carrying the
engine-supplied parse-failure message when the body is not valid JSON. -/
structure HttpResponse where
  status : Nat
  statusText : String
  jsonBody : Except String Json

/-- The error-body inspection of MakeClient.request: detail is
errorBody.message, else errorBody.detail, else JSON.stringify(errorBody),
JavaScript-or semantics throughout. A body that fails to parse leaves
detail undefined (the parse error is caught and ignored); a body that
parses to JSON null also leaves detail undefined, because the property
access on null throws a TypeError that the same catch swallows. -/
def computeDetail (jsonBody : Except String Json) : Option Json :=
  match jsonBody with
  | .error _ => none
  | .ok .null => none
  | .ok body =>
    jsOr (jsOr (objGet body "message") (objGet body "detail"))
      (some (.str (stringifyCompact body)))

/-- The MakeApiError thrown for a non-ok response. -/
def requestError (r : HttpResponse) : MakeApiError :=
  { statusCode := r.status, statusText := r.statusText, detail := computeDetail r.jsonBody }

/-- A failure escaping MakeClient.request: the structured MakeApiError, or
the SyntaxError with which response.json() rejects on a 2xx response whose
body is not JSON. -/
inductive JsError where
  | makeApiError : MakeApiError → JsError
  | jsonParseError : String → JsError

/-- Response handling of MakeClient.request: response.ok (status 200-299)
yields the parsed JSON body; otherwise the structured MakeApiError is
thrown. -/
def handleResponse (r : HttpResponse) : Except JsError Json :=
  if 200 ≤ r.status ∧ r.status ≤ 299 then
    match r.jsonBody with
    | .ok j => .ok j
    | .error msg => .error (.jsonParseError msg)
  else .error (.makeApiError (requestError r))

/-- The HTTP request MakeClient.request hands to fetch: method, full URL,
and the JSON-serialized body when one is sent. -/
structure HttpRequest where
  method : String
  url : String
  body : Option String

/-- Body serialization of MakeClient.request: body is stringified only when
truthy (the source tests body ? JSON.stringify(body) : undefined). -/
def serializeBody (b : Option Json) : Option String :=
  if truthy b then b.map stringifyCompact else none

/-- The request MakeClient.request constructs from its arguments. -/
def MakeClient.requestReq (c : MakeClient) (method path : String)
    (body : Option Json) (queryParams : Option (List (String × Option Json))) : HttpRequest :=
  { method := method, url := buildUrl c.baseUrl path queryParams, body := serializeBody body }

/-- The optional pagination record accepted by the list methods; each field
may be undefined. -/
structure Pagination where
  offset : Option Json
  limit : Option Json
  sortBy : Option Json
  sortDir : Option Json

/-- Optional-chaining access pagination?.field. -/
def pgGet (pg : Option Pagination) (f : Pagination → Option Json) : Option Json :=
  match pg with
  | none => none
  | some p => f p

/-- The two pagination conditionals shared verbatim by listConnections,
listHooks, listDataStores, listDataStoreRecords, listTeams,
listOrganizations and getScenarioLogs: a pg[offset] or pg[limit] entry is
added only when the value is truthy. -/
def pgQuery (pg : Option Pagination) : List (String × Option Json) :=
  (if truthy (pgGet pg Pagination.offset) then [("pg[offset]", pgGet pg Pagination.offset)] else []) ++
  (if truthy (pgGet pg Pagination.limit) then [("pg[limit]", pgGet pg Pagination.limit)] else [])

/-- The query record built by listScenarios: teamId, organizationId and all
four pagination keys are each added only when truthy. -/
def listScenariosQuery (teamId organizationId : Option Json) (pg : Option Pagination) :
    List (String × Option Json) :=
  (if truthy teamId then [("teamId", teamId)] else []) ++
  (if truthy organizationId then [("organizationId", organizationId)] else []) ++
  (if truthy (pgGet pg Pagination.offset) then [("pg[offset]", pgGet pg Pagination.offset)] else []) ++
  (if truthy (pgGet pg Pagination.limit) then [("pg[limit]", pgGet pg Pagination.limit)] else []) ++
  (if truthy (pgGet pg Pagination.sortBy) then [("pg[sortBy]", pgGet pg Pagination.sortBy)] else []) ++
  (if truthy (pgGet pg Pagination.sortDir) then [("pg[sortDir]", pgGet pg Pagination.sortDir)] else [])

def MakeClient.listScenariosReq (c : MakeClient) (teamId organizationId : Option Json)
    (pg : Option Pagination) : HttpRequest :=
  c.requestReq "GET" "/scenarios" none (some (listScenariosQuery teamId organizationId pg))

def MakeClient.getScenarioReq (c : MakeClient) (scenarioId : Option Json) : HttpRequest :=
  c.requestReq "GET" ("/scenarios/" ++ jsString scenarioId) none none

def MakeClient.createScenarioReq (c : MakeClient) (params : Option Json) : HttpRequest :=
  c.requestReq "POST" "/scenarios" params (some [("confirmed", some (.bool true))])

def MakeClient.updateScenarioReq (c : MakeClient) (scenarioId : Option Json)
    (params : Option Json) : HttpRequest :=
  c.requestReq "PATCH" ("/scenarios/" ++ jsString scenarioId) params
    (some [("confirmed", some (.bool true))])

def MakeClient.deleteScenarioReq (c : MakeClient) (scenarioId : Option Json) : HttpRequest :=
  c.requestReq "DELETE" ("/scenarios/" ++ jsString scenarioId) none none

def MakeClient.activateScenarioReq (c : MakeClient) (scenarioId : Option Json) : HttpRequest :=
  c.requestReq "POST" ("/scenarios/" ++ jsString scenarioId ++ "/start") none none

def MakeClient.deactivateScenarioReq (c : MakeClient) (scenarioId : Option Json) : HttpRequest :=
  c.requestReq "POST" ("/scenarios/" ++ jsString scenarioId ++ "/stop") none none

def MakeClient.runScenarioReq (c : MakeClient) (scenarioId : Option Json)
    (params : Option Json) : HttpRequest :=
  c.requestReq "POST" ("/scenarios/" ++ jsString scenarioId ++ "/run") params none

/-- cloneScenario: body holds name, teamId and the states flag (false by
default at every call site); organizationId travels as a query parameter. -/
def MakeClient.cloneScenarioReq (c : MakeClient) (scenarioId nameArg teamId organizationId : Option Json) :
    HttpRequest :=
  c.requestReq "POST" ("/scenarios/" ++ jsString scenarioId ++ "/clone")
    (some (jsObj [("name", nameArg), ("teamId", teamId), ("states", some (.bool false))]))
    (some [("organizationId", organizationId)])

def MakeClient.getScenarioBlueprintReq (c : MakeClient) (scenarioId : Option Json) : HttpRequest :=
  c.requestReq "GET" ("/scenarios/" ++ jsString scenarioId ++ "/blueprint") none none

def MakeClient.getScenarioLogsReq (c : MakeClient) (scenarioId : Option Json)
    (pg : Option Pagination) : HttpRequest :=
  c.requestReq "GET" ("/scenarios/" ++ jsString scenarioId ++ "/logs") none (some (pgQuery pg))

/-- listConnections: teamId is put into the query record unconditionally
(an undefined value is then dropped by the append loop of request). -/
def MakeClient.listConnectionsReq (c : MakeClient) (teamId : Option Json)
    (pg : Option Pagination) : HttpRequest :=
  c.requestReq "GET" "/connections" none (some (("teamId", teamId) :: pgQuery pg))

def MakeClient.listHooksReq (c : MakeClient) (teamId : Option Json)
    (pg : Option Pagination) : HttpRequest :=
  c.requestReq "GET" "/hooks" none (some (("teamId", teamId) :: pgQuery pg))

def MakeClient.listDataStoresReq (c : MakeClient) (teamId : Option Json)
    (pg : Option Pagination) : HttpRequest :=
  c.requestReq "GET" "/data-stores" none (some (("teamId", teamId) :: pgQuery pg))

def MakeClient.getDataStoreReq (c : MakeClient) (dataStoreId : Option Json) : HttpRequest :=
  c.requestReq "GET" ("/data-stores/" ++ jsString dataStoreId) none none

def MakeClient.createDataStoreReq (c : MakeClient)
    (teamId nameArg maxSize dataStructureId : Option Json) : HttpRequest :=
  c.requestReq "POST" "/data-stores"
    (some (jsObj [("teamId", teamId), ("name", nameArg), ("maxSizeMB", maxSize),
                  ("dataStructureId", dataStructureId)]))
    none

def MakeClient.listDataStoreRecordsReq (c : MakeClient) (dataStoreId : Option Json)
    (pg : Option Pagination) : HttpRequest :=
  c.requestReq "GET" ("/data-stores/" ++ jsString dataStoreId ++ "/data") none
    (some (pgQuery pg))

def MakeClient.createDataStoreRecordReq (c : MakeClient) (dataStoreId : Option Json)
    (data : Option Json) : HttpRequest :=
  c.requestReq "POST" ("/data-stores/" ++ jsString dataStoreId ++ "/data") data none

def MakeClient.listTeamsReq (c : MakeClient) (organizationId : Option Json)
    (pg : Option Pagination) : HttpRequest :=
  c.requestReq "GET" "/teams" none (some (("organizationId", organizationId) :: pgQuery pg))

def MakeClient.listOrganizationsReq (c : MakeClient) (pg : Option Pagination) : HttpRequest :=
  c.requestReq "GET" "/organizations" none (some (pgQuery pg))

def MakeClient.getCurrentUserReq (c : MakeClient) : HttpRequest :=
  c.requestReq "GET" "/users/me" none none

/-- A content block of a tool result. -/
structure ContentBlock where
  type : String
  text : String

/-- The MCP tool-result envelope. A result the source returns without an
isError key is modelled with isError false (absent and false are
indistinguishable to the protocol). -/
structure ToolResult where
  content : List ContentBlock
  isError : Bool

/-- The success envelope every handler returns: one text block holding the
two-space pretty-printed JSON of the remote result. -/
def mkSuccess (j : Json) : ToolResult :=
  { content := [{ type := "text", text := stringifyPretty 0 j }], isError := false }

/-- The error envelope: one text block with a message, flagged isError. -/
def mkErrorResult (msg : String) : ToolResult :=
  { content := [{ type := "text", text := msg }], isError := true }

/-- Issuing one client request against a remote and shaping the body:
success wraps the parsed JSON in the success envelope, failure rethrows. -/
def runTool (remote : HttpRequest → HttpResponse) (req : HttpRequest) :
    Except JsError ToolResult :=
  match handleResponse (remote req) with
  | .ok j => .ok (mkSuccess j)
  | .error e => .error e

/-- A dispatcher run: the value returned (or the error propagated) together
with the remote requests issued along the way. -/
structure DispatchResult where
  outcome : Except JsError ToolResult
  requests : List HttpRequest

/-- Argument extraction args?.field from the untyped argument bag. -/
def getArg (args : List (String × Json)) (key : String) : Option Json :=
  (args.find? (fun p => p.1 == key)).map (fun p => p.2)

/-- The switch body of the standalone dispatcher (src/index.ts): one case
per tool, each issuing exactly one client request, plus the default case
returning the unknown-tool error result. -/
def dispatchInner (c : MakeClient) (remote : HttpRequest → HttpResponse)
    (name : String) (args : List (String × Json)) :
    Except JsError ToolResult × List HttpRequest :=
  match name with
  | "list_scenarios" =>
    let req := c.listScenariosReq (getArg args "teamId") (getArg args "organizationId")
      (some { offset := getArg args "offset", limit := getArg args "limit",
              sortBy := none, sortDir := none })
    (runTool remote req, [req])
  | "get_scenario" =>
    let req := c.getScenarioReq (getArg args "scenarioId")
    (runTool remote req, [req])
  | "create_scenario" =>
    let req := c.createScenarioReq
      (some (jsObj [("teamId", getArg args "teamId"), ("blueprint", getArg args "blueprint"),
                    ("scheduling", getArg args "scheduling"), ("folderId", getArg args "folderId")]))
    (runTool remote req, [req])
  | "update_scenario" =>
    let req := c.updateScenarioReq (getArg args "scenarioId")
      (some (jsObj [("name", getArg args "name"), ("blueprint", getArg args "blueprint"),
                    ("scheduling", getArg args "scheduling"), ("folderId", getArg args "folderId")]))
    (runTool remote req, [req])
  | "delete_scenario" =>
    let req := c.deleteScenarioReq (getArg args "scenarioId")
    (runTool remote req, [req])
  | "activate_scenario" =>
    let req := c.activateScenarioReq (getArg args "scenarioId")
    (runTool remote req, [req])
  | "deactivate_scenario" =>
    let req := c.deactivateScenarioReq (getArg args "scenarioId")
    (runTool remote req, [req])
  | "run_scenario" =>
    let req := c.runScenarioReq (getArg args "scenarioId")
      (some (jsObj [("data", getArg args "data"), ("responsive", getArg args "responsive")]))
    (runTool remote req, [req])
  | "clone_scenario" =>
    let req := c.cloneScenarioReq (getArg args "scenarioId") (getArg args "name")
      (getArg args "teamId") (getArg args "organizationId")
    (runTool remote req, [req])
  | "get_scenario_blueprint" =>
    let req := c.getScenarioBlueprintReq (getArg args "scenarioId")
    (runTool remote req, [req])
  | "get_scenario_logs" =>
    let req := c.getScenarioLogsReq (getArg args "scenarioId")
      (some { offset := none, limit := getArg args "limit", sortBy := none, sortDir := none })
    (runTool remote req, [req])
  | "list_connections" =>
    let req := c.listConnectionsReq (getArg args "teamId")
      (some { offset := none, limit := getArg args "limit", sortBy := none, sortDir := none })
    (runTool remote req, [req])
  | "list_hooks" =>
    let req := c.listHooksReq (getArg args "teamId")
      (some { offset := none, limit := getArg args "limit", sortBy := none, sortDir := none })
    (runTool remote req, [req])
  | "list_data_stores" =>
    let req := c.listDataStoresReq (getArg args "teamId")
      (some { offset := none, limit := getArg args "limit", sortBy := none, sortDir := none })
    (runTool remote req, [req])
  | "get_data_store" =>
    let req := c.getDataStoreReq (getArg args "dataStoreId")
    (runTool remote req, [req])
  | "create_data_store" =>
    let req := c.createDataStoreReq (getArg args "teamId") (getArg args "name")
      (getArg args "maxSize") none
    (runTool remote req, [req])
  | "list_data_store_records" =>
    let req := c.listDataStoreRecordsReq (getArg args "dataStoreId")
      (some { offset := none, limit := getArg args "limit", sortBy := none, sortDir := none })
    (runTool remote req, [req])
  | "create_data_store_record" =>
    let req := c.createDataStoreRecordReq (getArg args "dataStoreId") (getArg args "data")
    (runTool remote req, [req])
  | "list_teams" =>
    let req := c.listTeamsReq (getArg args "organizationId")
      (some { offset := none, limit := getArg args "limit", sortBy := none, sortDir := none })
    (runTool remote req, [req])
  | "list_organizations" =>
    let req := c.listOrganizationsReq
      (some { offset := none, limit := getArg args "limit", sortBy := none, sortDir := none })
    (runTool remote req, [req])
  | "get_current_user" =>
    let req := c.getCurrentUserReq
    (runTool remote req, [req])
  | _ => (.ok (mkErrorResult ("Unknown tool: " ++ name)), [])

/-- The catch of the standalone dispatcher: a MakeApiError becomes an
error-flagged result carrying the formatted message; every other failure is
rethrown. -/
def applyCatch : Except JsError ToolResult → Except JsError ToolResult
  | .ok r => .ok r
  | .error (.makeApiError e) => .ok (mkErrorResult ("Make API Error: " ++ e.message))
  | .error e => .error e

/-- The standalone dispatcher of src/index.ts: switch body wrapped in the
instanceof-filtering catch. -/
def dispatchStandalone (c : MakeClient) (remote : HttpRequest → HttpResponse)
    (name : String) (args : List (String × Json)) : DispatchResult :=
  let inner := dispatchInner c remote name args
  { outcome := applyCatch inner.1, requests := inner.2 }

/-- The switch body of the hosted dispatcher variant (first handler in
api/mcp.ts): only list_scenarios and run_scenario, the latter called
without a params argument. -/
def hostedInner (c : MakeClient) (remote : HttpRequest → HttpResponse)
    (name : String) (args : List (String × Json)) :
    Except JsError ToolResult × List HttpRequest :=
  match name with
  | "list_scenarios" =>
    let req := c.listScenariosReq (getArg args "teamId") (getArg args "organizationId")
      (some { offset := getArg args "offset", limit := getArg args "limit",
              sortBy := none, sortDir := none })
    (runTool remote req, [req])
  | "run_scenario" =>
    let req := c.runScenarioReq (getArg args "scenarioId") none
    (runTool remote req, [req])
  | _ => (.ok (mkErrorResult ("Unknown tool: " ++ name)), [])

/-- Error.prototype.toString, reached through String(error): the error name,
a colon-space separator, and the message (degenerate cases for empty
name or message). -/
def errToString (errName msg : String) : String :=
  if msg = "" then errName
  else if errName = "" then msg
  else errName ++ ": " ++ msg

/-- String(error) for the failures that can escape a handler: a
MakeApiError (whose name property is MakeApiError) or the SyntaxError from
a failed response.json(). -/
def jsErrorString : JsError → String
  | .makeApiError e => errToString "MakeApiError" e.message
  | .jsonParseError msg => errToString "SyntaxError" msg

/-- The catch of the hosted dispatcher variant: every failure, of any kind,
becomes an error-flagged result holding String(error). -/
def applyCatchAll : Except JsError ToolResult → Except JsError ToolResult
  | .ok r => .ok r
  | .error e => .ok (mkErrorResult (jsErrorString e))

/-- The hosted dispatcher of api/mcp.ts: switch body wrapped in the
catch-all. -/
def dispatchHosted (c : MakeClient) (remote : HttpRequest → HttpResponse)
    (name : String) (args : List (String × Json)) : DispatchResult :=
  let inner := hostedInner c remote name args
  { outcome := applyCatchAll inner.1, requests := inner.2 }

/-- The names of the tools the standalone server registers, in catalog
order. -/
def standaloneToolNames : List String :=
  ["list_scenarios", "get_scenario", "create_scenario", "update_scenario", "delete_scenario",
   "activate_scenario", "deactivate_scenario", "run_scenario", "clone_scenario",
   "get_scenario_blueprint", "get_scenario_logs", "list_connections", "list_hooks",
   "list_data_stores", "get_data_store", "create_data_store", "list_data_store_records",
   "create_data_store_record", "list_teams", "list_organizations", "get_current_user"]

/-- The names of the tools the hosted variant registers. -/
def hostedToolNames : List String := ["list_scenarios", "run_scenario"]

/-- The required-field lists declared by the input schemas of the
standalone tool catalog (a schema with no required key declares none). -/
def standaloneRequiredFields : List (String × List String) :=
  [("list_scenarios", []), ("get_scenario", ["scenarioId"]),
   ("create_scenario", ["teamId", "blueprint", "scheduling"]),
   ("update_scenario", ["scenarioId"]), ("delete_scenario", ["scenarioId"]),
   ("activate_scenario", ["scenarioId"]), ("deactivate_scenario", ["scenarioId"]),
   ("run_scenario", ["scenarioId"]),
   ("clone_scenario", ["scenarioId", "name", "teamId", "organizationId"]),
   ("get_scenario_blueprint", ["scenarioId"]), ("get_scenario_logs", ["scenarioId"]),
   ("list_connections", ["teamId"]), ("list_hooks", ["teamId"]),
   ("list_data_stores", ["teamId"]), ("get_data_store", ["dataStoreId"]),
   ("create_data_store", ["teamId", "name"]), ("list_data_store_records", ["dataStoreId"]),
   ("create_data_store_record", ["dataStoreId", "data"]), ("list_teams", ["organizationId"]),
   ("list_organizations", []), ("get_current_user", [])]

/-- A remote that answers every request with 200 OK and the given JSON
body. -/
def constRemote (j : Json) : HttpRequest → HttpResponse :=
  fun _ => { status := 200, statusText := "OK", jsonBody := .ok j }

theorem string_append_assoc (a b c : String) : a ++ b ++ c = a ++ (b ++ c) :=
  String.append_assoc a b c

theorem collectParams_eq_filterMap (qp : List (String × Option Json)) :
    collectParams qp =
      qp.filterMap (fun p => p.2.map (fun v => (p.1, jsStringOfJson v))) := by
  have h : ∀ (l : List (String × Option Json)) (acc : List (String × String)),
      l.foldl (fun acc kv =>
        match kv.2 with
        | some v => acc ++ [(kv.1, jsStringOfJson v)]
        | none => acc) acc
      = acc ++ l.filterMap (fun p => p.2.map (fun v => (p.1, jsStringOfJson v))) := by
    intro l
    induction l with
    | nil => intro acc; simp
    | cons hd tl ih =>
      intro acc
      cases h2 : hd.2 with
      | none => simp [List.foldl_cons, h2, ih, List.filterMap_cons]
      | some v => simp [List.foldl_cons, h2, ih, List.filterMap_cons]
  simpa [collectParams] using h qp []

theorem encodePair_ne_empty (p : String × String) : encodePair p ≠ "" := by
  intro h
  have hlen := congrArg String.length h
  simp [encodePair, String.length_append] at hlen
  exact absurd hlen.1.2 (by decide)

theorem serializeParams_eq_empty_iff (ps : List (String × String)) :
    serializeParams ps = "" ↔ ps = [] := by
  cases ps with
  | nil => simp [serializeParams]
  | cons p tl =>
    cases tl with
    | nil =>
      simp only [serializeParams]
      constructor
      · intro h; exact absurd h (encodePair_ne_empty p)
      · intro h; cases h
    | cons q tl2 =>
      simp only [serializeParams]
      constructor
      · intro h
        have hlen := congrArg String.length h
        simp [String.length_append] at hlen
        exact absurd hlen.1.2 (by decide)
      · intro h; cases h

theorem collectParams_eq_nil_iff (qp : List (String × Option Json)) :
    collectParams qp = [] ↔ ∀ p ∈ qp, p.2 = none := by
  rw [collectParams_eq_filterMap]
  rw [List.filterMap_eq_nil_iff]
  constructor
  · intro h p hp
    have := h p hp
    simpa [Option.map_eq_none'] using this
  · intro h p hp
    simp [h p hp]

/-- Claim C4: in the generic request operation a query parameter whose
value is undefined is omitted while every defined value (including 0,
false and the empty string) is appended as (key, String(value)); the full
URL is the base URL concatenated with the path, followed by a question
mark and the serialized query string exactly when at least one parameter
was appended. -/
theorem request_url_construction (base path : String) (qp : List (String × Option Json)) :
    buildUrl base path none = base ++ path
    ∧ collectParams qp = qp.filterMap (fun p => p.2.map (fun v => (p.1, jsStringOfJson v)))
    ∧ (collectParams qp = [] ↔ ∀ p ∈ qp, p.2 = none)
    ∧ buildUrl base path (some qp) =
        (if collectParams qp = [] then base ++ path
         else base ++ path ++ "?" ++ serializeParams (collectParams qp)) := by
  refine ⟨rfl, collectParams_eq_filterMap qp, collectParams_eq_nil_iff qp, ?_⟩
  by_cases h : collectParams qp = []
  · simp [buildUrl, h, serializeParams]
  · have hs : serializeParams (collectParams qp) ≠ "" := by
      rw [Ne, serializeParams_eq_empty_iff]; exact h
    simp only [buildUrl, if_neg hs, if_neg h]
    conv_rhs => rw [string_append_assoc]

/-- Claim C8: createScenario and updateScenario always pass the query
record containing only confirmed set to true, so for every client and all
parameter values the constructed URL is the path followed by the query
string confirmed=true. -/
theorem scenario_mutations_confirmed_flag (c : MakeClient) (params : Option Json)
    (scenarioId : Option Json) :
    (c.createScenarioReq params).url = c.baseUrl ++ "/scenarios?confirmed=true"
    ∧ (c.updateScenarioReq scenarioId params).url =
        c.baseUrl ++ "/scenarios/" ++ jsString scenarioId ++ "?confirmed=true" := by
  constructor
  · have h1 : (c.createScenarioReq params).url = c.baseUrl ++ "/scenarios" ++ "?confirmed=true" := rfl
    rw [h1, string_append_assoc]
    rfl
  · have h2 : (c.updateScenarioReq scenarioId params).url =
        c.baseUrl ++ ("/scenarios/" ++ jsString scenarioId) ++ "?confirmed=true" := rfl
    rw [h2, ← string_append_assoc c.baseUrl "/scenarios/" (jsString scenarioId)]

/-- Claim C1 counterexample: listScenarios called with teamId 0,
organizationId 0, offset 0 and limit 0 produces a URL with no query string
at all (no question mark), so an explicitly provided zero is not encoded. -/
theorem listScenarios_zero_values_dropped :
    ((makeClient ⟨"token", "eu1"⟩).listScenariosReq (some (Json.num 0)) (some (Json.num 0))
        (some ⟨some (Json.num 0), some (Json.num 0), none, none⟩)).url =
      "https://eu1.make.com/api/v2/scenarios"
    ∧ ¬ ('?' ∈ ((makeClient ⟨"token", "eu1"⟩).listScenariosReq (some (Json.num 0))
        (some (Json.num 0)) (some ⟨some (Json.num 0), some (Json.num 0), none,
        none⟩)).url.toList) := by
  exact ⟨rfl, by decide⟩

/-- Claim C1 (amended): in listScenarios, listConnections, listHooks,
listDataStores, listDataStoreRecords, listTeams, listOrganizations and
getScenarioLogs, an explicitly provided 0 for offset or limit (and, for
listScenarios, for teamId or organizationId) is treated exactly like an
absent value and omitted from the query; pgQuery is the offset/limit
conditional pair those per-entity methods share. -/
theorem zero_pagination_treated_as_absent (c : MakeClient) (tid oid sid dsid : Option Json)
    (lim off sb sd : Option Json) :
    pgQuery (some ⟨some (Json.num 0), lim, sb, sd⟩) = pgQuery (some ⟨none, lim, sb, sd⟩)
    ∧ pgQuery (some ⟨off, some (Json.num 0), sb, sd⟩) = pgQuery (some ⟨off, none, sb, sd⟩)
    ∧ listScenariosQuery (some (Json.num 0)) oid (some ⟨off, lim, sb, sd⟩) =
        listScenariosQuery none oid (some ⟨off, lim, sb, sd⟩)
    ∧ listScenariosQuery tid (some (Json.num 0)) (some ⟨off, lim, sb, sd⟩) =
        listScenariosQuery tid none (some ⟨off, lim, sb, sd⟩)
    ∧ listScenariosQuery tid oid (some ⟨some (Json.num 0), lim, sb, sd⟩) =
        listScenariosQuery tid oid (some ⟨none, lim, sb, sd⟩)
    ∧ listScenariosQuery tid oid (some ⟨off, some (Json.num 0), sb, sd⟩) =
        listScenariosQuery tid oid (some ⟨off, none, sb, sd⟩)
    ∧ c.listConnectionsReq tid (some ⟨off, some (Json.num 0), sb, sd⟩) =
        c.listConnectionsReq tid (some ⟨off, none, sb, sd⟩)
    ∧ c.listHooksReq tid (some ⟨off, some (Json.num 0), sb, sd⟩) =
        c.listHooksReq tid (some ⟨off, none, sb, sd⟩)
    ∧ c.listDataStoresReq tid (some ⟨off, some (Json.num 0), sb, sd⟩) =
        c.listDataStoresReq tid (some ⟨off, none, sb, sd⟩)
    ∧ c.listDataStoreRecordsReq dsid (some ⟨some (Json.num 0), lim, sb, sd⟩) =
        c.listDataStoreRecordsReq dsid (some ⟨none, lim, sb, sd⟩)
    ∧ c.listTeamsReq oid (some ⟨off, some (Json.num 0), sb, sd⟩) =
        c.listTeamsReq oid (some ⟨off, none, sb, sd⟩)
    ∧ c.listOrganizationsReq (some ⟨some (Json.num 0), lim, sb, sd⟩) =
        c.listOrganizationsReq (some ⟨none, lim, sb, sd⟩)
    ∧ c.getScenarioLogsReq sid (some ⟨off, some (Json.num 0), sb, sd⟩) =
        c.getScenarioLogsReq sid (some ⟨off, none, sb, sd⟩) :=
  ⟨rfl, rfl, rfl, rfl, rfl, rfl, rfl, rfl, rfl, rfl, rfl, rfl, rfl⟩

/-- Claim C2 counterexample: a non-2xx response whose body parses as JSON
containing a message field that is the empty string does not get that
message as detail; the detail is the JSON serialization of the whole
body. -/
theorem empty_message_detail_fallback :
    (requestError ⟨500, "Internal Server Error",
        .ok (.obj [("message", .str "")])⟩).detail =
      some (.str "\x7b\"message\":\"\"\x7d")
    ∧ (requestError ⟨500, "Internal Server Error",
        .ok (.obj [("message", .str "")])⟩).detail ≠ some (.str "") := by
  refine ⟨rfl, ?_⟩
  have h : (requestError ⟨500, "Internal Server Error",
      .ok (.obj [("message", .str "")])⟩).detail =
    some (.str "\x7b\"message\":\"\"\x7d") := rfl
  rw [h]
  intro hc
  injection hc with h1
  injection h1 with h2
  exact absurd h2 (by decide)

/-- Claim C2 (amended): the thrown error always carries the numeric status
code and the status text; when the body parses as JSON with a truthy
message field the detail is exactly that message; when the body is not
parseable as JSON no detail is attached. (An empty-string message is falsy
and falls through to the fallback chain instead.) -/
theorem requestError_detail_spec (r : HttpResponse) :
    ((requestError r).statusCode = r.status ∧ (requestError r).statusText = r.statusText)
    ∧ (∀ body m, r.jsonBody = .ok body → objGet body "message" = some m →
        truthy (some m) = true → (requestError r).detail = some m)
    ∧ (∀ msg, r.jsonBody = .error msg → (requestError r).detail = none) := by
  refine ⟨⟨rfl, rfl⟩, ?_, ?_⟩
  · intro body m hb hm ht
    cases body with
    | null => simp [objGet] at hm
    | bool b => simp [objGet] at hm
    | num n => simp [objGet] at hm
    | str s => simp [objGet] at hm
    | arr xs => simp [objGet] at hm
    | obj fs => simp [requestError, computeDetail, hb, jsOr, hm, ht]
  · intro msg hmsg
    simp [requestError, computeDetail, hmsg]

theorem requestError_detail_spec_witness :
    ((requestError ⟨404, "Not Found",
        .ok (.obj [("message", .str "Scenario not found")])⟩).detail =
      some (.str "Scenario not found"))
    ∧ (requestError ⟨502, "Bad Gateway", .error "Unexpected token"⟩).detail = none :=
  ⟨(requestError_detail_spec _).2.1 _ _ rfl rfl rfl,
   (requestError_detail_spec _).2.2 _ rfl⟩

/-- Claim C10 counterexample: a body that parses to JSON null leaves the
error with no detail (the property access on null throws a TypeError that
the catch swallows), so a parsed JSON error body can yield an error with
no detail. -/
theorem null_body_yields_no_detail :
    (⟨500, "Internal Server Error", .ok Json.null⟩ : HttpResponse).jsonBody = .ok Json.null
    ∧ (requestError ⟨500, "Internal Server Error", .ok Json.null⟩).detail = none :=
  ⟨rfl, rfl⟩

theorem computeDetail_ok_not_null (body : Json) (hn : body ≠ Json.null) :
    computeDetail (.ok body) =
      jsOr (jsOr (objGet body "message") (objGet body "detail"))
        (some (.str (stringifyCompact body))) := by
  cases body with
  | null => exact absurd rfl hn
  | bool b => rfl
  | num n => rfl
  | str s => rfl
  | arr xs => rfl
  | obj fs => rfl

/-- Claim C10 (amended): for a non-parseable body or a body that parses to
JSON null the detail is absent; for any other parsed body the detail
follows the fallback chain truthy message, else truthy detail field, else
the JSON serialization of the whole body, and is never absent. -/
theorem detail_fallback_chain (r : HttpResponse) (body : Json)
    (hb : r.jsonBody = .ok body) (hn : body ≠ Json.null) :
    (truthy (objGet body "message") = true →
      (requestError r).detail = objGet body "message")
    ∧ (truthy (objGet body "message") = false → truthy (objGet body "detail") = true →
      (requestError r).detail = objGet body "detail")
    ∧ (truthy (objGet body "message") = false → truthy (objGet body "detail") = false →
      (requestError r).detail = some (.str (stringifyCompact body)))
    ∧ (requestError r).detail ≠ none := by
  have hd : (requestError r).detail =
      jsOr (jsOr (objGet body "message") (objGet body "detail"))
        (some (.str (stringifyCompact body))) := by
    simp [requestError, hb, computeDetail_ok_not_null body hn]
  refine ⟨?_, ?_, ?_, ?_⟩
  · intro ht; rw [hd]; simp [jsOr, ht]
  · intro hf ht; rw [hd]; simp [jsOr, hf, ht]
  · intro hf1 hf2; rw [hd]; simp [jsOr, hf1, hf2]
  · rw [hd]
    cases hX : jsOr (objGet body "message") (objGet body "detail") with
    | none => simp [jsOr, truthy]
    | some v =>
      simp only [jsOr]
      split <;> simp

theorem detail_fallback_chain_witness :
    (requestError ⟨500, "Internal Server Error",
        .ok (.obj [("detail", .str "oops")])⟩).detail = some (.str "oops")
    ∧ (requestError ⟨500, "Internal Server Error",
        .ok (.obj [("detail", .str "oops")])⟩).detail ≠ none :=
  ⟨((detail_fallback_chain ⟨500, "Internal Server Error",
      .ok (.obj [("detail", .str "oops")])⟩ _ rfl
      (fun h => Json.noConfusion h)).2.1 rfl rfl).trans rfl,
   (detail_fallback_chain ⟨500, "Internal Server Error",
      .ok (.obj [("detail", .str "oops")])⟩ _ rfl
      (fun h => Json.noConfusion h)).2.2.2⟩

theorem unknown_tool_inner_standalone (c : MakeClient) (remote : HttpRequest → HttpResponse)
    (name : String) (args : List (String × Json)) (h : name ∉ standaloneToolNames) :
    dispatchInner c remote name args =
      (.ok (mkErrorResult ("Unknown tool: " ++ name)), []) := by
  unfold dispatchInner
  split <;> first
    | rfl
    | exact absurd (by decide) h

theorem unknown_tool_inner_hosted (c : MakeClient) (remote : HttpRequest → HttpResponse)
    (name : String) (args : List (String × Json)) (h : name ∉ hostedToolNames) :
    hostedInner c remote name args =
      (.ok (mkErrorResult ("Unknown tool: " ++ name)), []) := by
  unfold hostedInner
  split <;> first
    | rfl
    | exact absurd (by decide) h

/-- Claim C7: invoking a tool name not registered in a dispatcher's catalog
returns, from that dispatcher, a normal error-flagged result whose text
names the unknown tool; the outcome is a returned value (never a thrown
fault) and the list of issued remote requests is empty. -/
theorem unknown_tool_error_result (c : MakeClient) (remote : HttpRequest → HttpResponse)
    (name : String) (args : List (String × Json)) :
    (name ∉ standaloneToolNames →
      dispatchStandalone c remote name args =
        { outcome := .ok { content := [{ type := "text", text := "Unknown tool: " ++ name }],
                           isError := true },
          requests := [] })
    ∧ (name ∉ hostedToolNames →
      dispatchHosted c remote name args =
        { outcome := .ok { content := [{ type := "text", text := "Unknown tool: " ++ name }],
                           isError := true },
          requests := [] }) := by
  constructor
  · intro h1
    simp [dispatchStandalone, unknown_tool_inner_standalone c remote name args h1,
      applyCatch, mkErrorResult]
  · intro h2
    simp [dispatchHosted, unknown_tool_inner_hosted c remote name args h2,
      applyCatchAll, mkErrorResult]

theorem unknown_tool_error_result_witness :
    ("bogus_tool" ∉ standaloneToolNames) ∧ ("bogus_tool" ∉ hostedToolNames)
    ∧ dispatchStandalone (makeClient ⟨"token", "eu1"⟩) (constRemote Json.null) "bogus_tool" [] =
      { outcome := .ok { content := [{ type := "text", text := "Unknown tool: bogus_tool" }],
                         isError := true },
        requests := [] } :=
  ⟨by decide, by decide,
   (unknown_tool_error_result (makeClient ⟨"token", "eu1"⟩) (constRemote Json.null)
      "bogus_tool" []).1 (by decide)⟩

/-- Claim C3: whenever the underlying API call of a standalone-dispatcher
invocation fails with the structured MakeApiError, the dispatcher returns
(does not throw) an error-flagged result whose single text block is the
formatted message (status code and detail included); in particular
get_scenario against a remote answering 404 with body containing message
Scenario not found yields an error-flagged text containing 404 and
Scenario not found. -/
theorem makeApiError_caught_and_formatted (c : MakeClient)
    (remote : HttpRequest → HttpResponse) (name : String) (args : List (String × Json)) :
    (∀ e : MakeApiError, (dispatchInner c remote name args).1 = .error (.makeApiError e) →
      (dispatchStandalone c remote name args).outcome =
        .ok { content := [{ type := "text", text := "Make API Error: " ++ e.message }],
              isError := true })
    ∧ (dispatchStandalone c
        (fun _ => ⟨404, "Not Found", .ok (.obj [("message", .str "Scenario not found")])⟩)
        "get_scenario" [("scenarioId", .num 999)]).outcome =
      .ok { content := [{ type := "text", text := "Make API Error: " ++ (MakeApiError.mk 404 "Not Found" (some (.str "Scenario not found"))).message }],
            isError := true }
    ∧ "Make API Error: " ++ (MakeApiError.mk 404 "Not Found" (some (.str "Scenario not found"))).message =
      "Make API Error: Make API Error 404: Not Found - Scenario not found" := by
  refine ⟨?_, rfl, rfl⟩
  intro e he
  simp [dispatchStandalone, he, applyCatch, mkErrorResult]

theorem makeApiError_caught_and_formatted_witness :
    (dispatchInner (makeClient ⟨"token", "eu1"⟩)
        (fun _ => ⟨404, "Not Found", .ok (.obj [("message", .str "Scenario not found")])⟩)
        "get_scenario" [("scenarioId", .num 999)]).1 =
      .error (.makeApiError ⟨404, "Not Found", some (.str "Scenario not found")⟩)
    ∧ (dispatchStandalone (makeClient ⟨"token", "eu1"⟩)
        (fun _ => ⟨404, "Not Found", .ok (.obj [("message", .str "Scenario not found")])⟩)
        "get_scenario" [("scenarioId", .num 999)]).outcome =
      .ok { content := [{ type := "text", text := "Make API Error: " ++ (MakeApiError.mk 404 "Not Found" (some (.str "Scenario not found"))).message }],
            isError := true } :=
  ⟨rfl,
   (makeApiError_caught_and_formatted (makeClient ⟨"token", "eu1"⟩)
      (fun _ => ⟨404, "Not Found", .ok (.obj [("message", .str "Scenario not found")])⟩)
      "get_scenario" [("scenarioId", .num 999)]).1
      ⟨404, "Not Found", some (.str "Scenario not found")⟩ rfl⟩

/-- Claim C5, code behavior at the failing input: get_scenario called with
an empty argument bag is not rejected; the declared-required scenarioId is
extracted as undefined, forwarded into the client, and one remote request
to the path /scenarios/undefined is issued, whose success payload is
relayed as a normal success result. -/
theorem get_scenario_missing_arg_forwarded (c : MakeClient) (j : Json) :
    ("get_scenario", ["scenarioId"]) ∈ standaloneRequiredFields
    ∧ getArg [] "scenarioId" = none
    ∧ (dispatchStandalone c (constRemote j) "get_scenario" []).requests =
        [{ method := "GET", url := c.baseUrl ++ "/scenarios/undefined", body := none }]
    ∧ (dispatchStandalone c (constRemote j) "get_scenario" []).outcome = .ok (mkSuccess j) :=
  ⟨by decide, rfl, rfl, rfl⟩

/-- Claim C6 counterexample: the hosted dispatcher variant catches a
failure that is not a MakeApiError (here the SyntaxError of a failed
response.json() on a 2xx response) and converts it into an error-flagged
result instead of letting it propagate. -/
theorem hosted_dispatcher_swallows_all_errors :
    (dispatchHosted (makeClient ⟨"token", "eu1"⟩)
      (fun _ => ⟨200, "OK", .error "Unexpected token"⟩)
      "run_scenario" [("scenarioId", .num 1)]).outcome =
      .ok { content := [{ type := "text", text := "SyntaxError: Unexpected token" }],
            isError := true } := rfl

/-- Claim C6 (amended): the standalone dispatcher rethrows every failure
that is not a MakeApiError, so it propagates out of the handler; the
hosted variant instead converts every failure into an error-flagged result
holding String(error). -/
theorem non_api_error_propagation (c : MakeClient) (remote : HttpRequest → HttpResponse)
    (name : String) (args : List (String × Json)) :
    (∀ msg, (dispatchInner c remote name args).1 = .error (.jsonParseError msg) →
      (dispatchStandalone c remote name args).outcome = .error (.jsonParseError msg))
    ∧ (∀ e, (hostedInner c remote name args).1 = .error e →
      (dispatchHosted c remote name args).outcome = .ok (mkErrorResult (jsErrorString e))) := by
  constructor
  · intro msg h
    simp [dispatchStandalone, h, applyCatch]
  · intro e h
    simp [dispatchHosted, h, applyCatchAll]

theorem non_api_error_propagation_witness :
    (dispatchStandalone (makeClient ⟨"token", "eu1"⟩)
      (fun _ => ⟨200, "OK", .error "Unexpected token"⟩)
      "run_scenario" [("scenarioId", .num 1)]).outcome =
      .error (.jsonParseError "Unexpected token")
    ∧ (dispatchHosted (makeClient ⟨"token", "eu1"⟩)
      (fun _ => ⟨200, "OK", .error "Unexpected token"⟩)
      "list_scenarios" []).outcome =
      .ok (mkErrorResult (jsErrorString (.jsonParseError "Unexpected token"))) := by
  constructor
  · exact (non_api_error_propagation (makeClient ⟨"token", "eu1"⟩)
      (fun _ => ⟨200, "OK", .error "Unexpected token"⟩)
      "run_scenario" [("scenarioId", .num 1)]).1 "Unexpected token" rfl
  · exact (non_api_error_propagation (makeClient ⟨"token", "eu1"⟩)
      (fun _ => ⟨200, "OK", .error "Unexpected token"⟩)
      "list_scenarios" []).2 (.jsonParseError "Unexpected token") rfl

theorem handleResponse_ok (resp : HttpResponse) (j : Json)
    (hok : 200 ≤ resp.status ∧ resp.status ≤ 299) (hbody : resp.jsonBody = .ok j) :
    handleResponse resp = .ok j := by
  unfold handleResponse
  rw [if_pos hok, hbody]

theorem runTool_ok (remote : HttpRequest → HttpResponse) (req : HttpRequest) (j : Json)
    (h : handleResponse (remote req) = .ok j) :
    runTool remote req = .ok (mkSuccess j) := by
  simp [runTool, h]

/-- Claim C9: for every catalogued tool of the standalone dispatcher and
every successful (2xx, JSON body j) response of the remote, the invocation
returns exactly one text content block holding the two-space
pretty-printed JSON of j, with no error flag, having issued exactly one
request; and run_scenario with the remote returning the executionId object
produces the pretty-printed JSON of exactly that object. -/
theorem success_envelope_shape (c : MakeClient) (name : String)
    (args : List (String × Json)) (j : Json) (resp : HttpResponse)
    (h : name ∈ standaloneToolNames)
    (hok : 200 ≤ resp.status ∧ resp.status ≤ 299) (hbody : resp.jsonBody = .ok j) :
    (∃ req : HttpRequest,
      dispatchStandalone c (fun _ => resp) name args =
        { outcome := .ok { content := [{ type := "text", text := stringifyPretty 0 j }],
                           isError := false },
          requests := [req] })
    ∧ (dispatchStandalone c
        (constRemote (.obj [("executionId", .str "abc123"), ("status", .str "success")]))
        "run_scenario" [("scenarioId", .num 42)]).outcome =
      .ok { content := [{ type := "text", text := stringifyPretty 0 (.obj [("executionId", .str "abc123"), ("status", .str "success")]) }],
            isError := false }
    ∧ stringifyPretty 0 (.obj [("executionId", .str "abc123"), ("status", .str "success")]) =
      "\x7b\n  \"executionId\": \"abc123\",\n  \"status\": \"success\"\n\x7d" := by
  refine ⟨?_, rfl, rfl⟩
  have hr : handleResponse resp = .ok j := handleResponse_ok resp j hok hbody
  simp only [standaloneToolNames, List.mem_cons, List.not_mem_nil, or_false] at h
  rcases h with rfl|rfl|rfl|rfl|rfl|rfl|rfl|rfl|rfl|rfl|rfl|rfl|rfl|rfl|rfl|rfl|rfl|rfl|rfl|rfl|rfl
  all_goals
    simp only [dispatchStandalone, dispatchInner]
    rw [runTool_ok _ _ j hr]
    exact ⟨_, rfl⟩

theorem success_envelope_shape_witness :
    ("run_scenario" ∈ standaloneToolNames)
    ∧ (∃ req : HttpRequest,
        dispatchStandalone (makeClient ⟨"token", "eu1"⟩)
          (constRemote (.obj [("executionId", .str "abc123"), ("status", .str "success")]))
          "run_scenario" [("scenarioId", .num 42)] =
          { outcome := .ok { content := [{ type := "text", text := stringifyPretty 0 (.obj [("executionId", .str "abc123"), ("status", .str "success")]) }],
                             isError := false },
            requests := [req] }) :=
  ⟨by decide,
   (success_envelope_shape (makeClient ⟨"token", "eu1"⟩) "run_scenario"
      [("scenarioId", .num 42)]
      (.obj [("executionId", .str "abc123"), ("status", .str "success")])
      ⟨200, "OK", .ok (.obj [("executionId", .str "abc123"), ("status", .str "success")])⟩
      (by decide) (by decide) rfl).1⟩
